import Mathlib

/-!
Shallow embedding of `src/main.rs` of the `main_menu` repository: an
interactive terminal menu delegating to external commands (`chvt`, `podman`).

The Command Runner functions (`run_capture`, `run_interactive`) are embedded
as pure functions over an explicit outcome environment: the operating-system
results of spawning a process (captured output / exit status / spawn error)
and of toggling terminal raw mode are supplied as data. Byte decoding
(`String::from_utf8_lossy`) is abstracted: the environment supplies the
already-decoded stdout/stderr text. An effect trace records which
subprocesses were spawned and which raw-mode toggles were performed, so that
"does not invoke a subprocess" becomes an equality on the trace.

The event loop of `main` is embedded as a step function `step` on the mutable
state `(screen, selected, message, input, input_origin)`, consuming one key
event and returning the quit flag, the new state and the effect trace.
-/

namespace MainMenu

/-- `PromptOrigin` from main.rs lines 26-32. -/
inductive PromptOrigin where
  | ChangeVT
  | PodmanStart
  | PodmanStop
  | PodmanShell
deriving DecidableEq, Repr

/-- `Screen` from main.rs lines 16-24; `Input` carries the prompt text and origin. -/
inductive Screen where
  | Main
  | VTMenu
  | Desktops
  | Podman
  | Output
  | Input (prompt : String) (origin : PromptOrigin)
deriving DecidableEq, Repr

/-- Model of `std::process::ExitStatus`: whether it is success, and its
`Display` rendering (e.g. "exit status: 1"). -/
structure ExitStatus where
  success : Bool
  display : String
deriving DecidableEq, Repr

/-- Model of `std::process::Output` as consumed by `run_capture`: the status
fields plus the lossy-decoded stdout and stderr (the UTF-8 replacement
decoding of `String::from_utf8_lossy` is abstracted into these fields). -/
structure CmdOutput where
  success : Bool
  statusDisplay : String
  stdoutLossy : String
  stderrLossy : String
deriving DecidableEq, Repr

/-- Outcome of `Command::new(cmd).args(args).output()`: either the collected
output, or an OS spawn error rendered as a string. -/
inductive SpawnResult where
  | ok (out : CmdOutput)
  | err (e : String)
deriving DecidableEq, Repr

/-- Whether a spawned child has its stdio captured or inherited from the tty. -/
inductive StdioMode where
  | captured
  | inherited
deriving DecidableEq, Repr

/-- One observable side effect of the program: attempting to spawn a child
process, or toggling terminal raw mode. -/
inductive Effect where
  | spawn (cmd : String) (args : List String) (stdio : StdioMode)
  | disableRaw
  | enableRaw
deriving DecidableEq, Repr

/-- Environment for one `run_interactive` call: the outcome of
`disable_raw_mode()`, of `Command::status()` (spawn error or exit status),
and of `enable_raw_mode()`, each rendered as the code renders them. -/
structure InteractiveEnv where
  disableRaw : Except String Unit
  spawnStatus : Except String ExitStatus
  enableRaw : Except String Unit

/-- Rust `str::trim`: drop leading and trailing whitespace (whitespace
approximated by `Char.isWhitespace`), written over the character list so it
evaluates by kernel reduction. -/
def rustTrim (s : String) : String :=
  String.mk
    (((s.toList.dropWhile Char.isWhitespace).reverse.dropWhile Char.isWhitespace).reverse)

/-- Rust `String::pop`: remove the last character (no-op on the empty string). -/
def rustPop (s : String) : String := String.mk s.toList.dropLast

/-- Approximation of Rust `Debug` escaping for one character. -/
def rustEscapeChar (c : Char) : String :=
  if c = '"' then "\\\""
  else if c = '\\' then "\\\\"
  else if c = '\n' then "\\n"
  else if c = '\t' then "\\t"
  else if c = '\r' then "\\r"
  else String.singleton c

/-- Rust `{:?}` rendering of a `&str`. -/
def rustDebugStr (s : String) : String :=
  "\"" ++ String.join (s.toList.map rustEscapeChar) ++ "\""

/-- Rust `{:?}` rendering of a `&[&str]`. -/
def rustDebugList (args : List String) : String :=
  "[" ++ String.intercalate ", " (args.map rustDebugStr) ++ "]"

/-- The synthesized failure message of main.rs line 42:
`format!("Command {:?} {:?} failed: {}", cmd, args, out.status)`. -/
def commandFailedMsg (cmd : String) (args : List String) (statusDisplay : String) : String :=
  "Command " ++ rustDebugStr cmd ++ " " ++ rustDebugList args ++ " failed: " ++ statusDisplay

/-- `run_capture` from main.rs lines 34-50, as a function of the spawn
outcome `r`. -/
def run_capture (cmd : String) (args : List String) (r : SpawnResult) : String :=
  match r with
  | .ok out =>
    if out.success then
      out.stdoutLossy
    else
      let err := out.stderrLossy
      if rustTrim err = "" then
        commandFailedMsg cmd args out.statusDisplay
      else
        err
  | .err e => "Failed to run " ++ cmd ++ ": " ++ e

/-- `run_interactive` from main.rs lines 52-65, as a function of the
environment `env`, returning the result together with the trace of effects
performed. `disable_raw_mode` failure returns early (no spawn); otherwise
the child is spawned with inherited stdio and `enable_raw_mode` runs
unconditionally; the child's exit status is discarded (`.map(|_| ())`). -/
def run_interactive (cmd : String) (args : List String) (env : InteractiveEnv) :
    Except String Unit × List Effect :=
  match env.disableRaw with
  | .error e => (.error e, [.disableRaw])
  | .ok _ =>
    let status := env.spawnStatus
    match env.enableRaw with
    | .error e => (.error e, [.disableRaw, .spawn cmd args .inherited, .enableRaw])
    | .ok _ =>
      (status.map fun _ => (), [.disableRaw, .spawn cmd args .inherited, .enableRaw])

/-- `podman_shell` from main.rs lines 84-87: try `/bin/sh`, and on an `Err`
result retry once with `/bin/bash` (`or_else`). `env1`/`env2` are the
environments of the first and second `run_interactive` call. -/
def podman_shell (id : String) (env1 env2 : InteractiveEnv) :
    Except String Unit × List Effect :=
  match run_interactive "podman" ["exec", "-it", id, "/bin/sh"] env1 with
  | (.ok _, t1) => (.ok (), t1)
  | (.error _, t1) =>
    let r2 := run_interactive "podman" ["exec", "-it", id, "/bin/bash"] env2
    (r2.1, t1 ++ r2.2)

/-- The world supplies the OS outcome of every captured spawn and the
terminal/spawn outcomes of every interactive invocation, keyed by command
and argument list. -/
structure World where
  captureOutcome : String → List String → SpawnResult
  interactiveEnv : String → List String → InteractiveEnv

/-- `run_capture` wired to the world, recording the captured spawn effect. -/
def run_captureW (w : World) (cmd : String) (args : List String) : String × List Effect :=
  (run_capture cmd args (w.captureOutcome cmd args), [.spawn cmd args .captured])

/-- `chvt` from main.rs lines 67-73: short-circuit with "empty VT" on a blank
argument (no spawn), else `sudo chvt <vt>` captured. -/
def chvt (w : World) (vt : String) : String × List Effect :=
  if rustTrim vt = "" then ("empty VT", [])
  else run_captureW w "sudo" ["chvt", vt]

/-- `podman_ps` from main.rs lines 75-77. -/
def podman_ps (w : World) : String × List Effect :=
  run_captureW w "podman"
    ["ps", "-a", "--format", "table \x7b\x7b.ID\x7d\x7d\t\x7b\x7b.Names\x7d\x7d\t\x7b\x7b.Status\x7d\x7d"]

/-- `podman_start` from main.rs lines 78-80. -/
def podman_start (w : World) (id : String) : String × List Effect :=
  run_captureW w "podman" ["start", id]

/-- `podman_stop` from main.rs lines 81-83. -/
def podman_stop (w : World) (id : String) : String × List Effect :=
  run_captureW w "podman" ["stop", id]

/-- `podman_shell` wired to the world. -/
def podman_shellW (w : World) (id : String) : Except String Unit × List Effect :=
  podman_shell id
    (w.interactiveEnv "podman" ["exec", "-it", id, "/bin/sh"])
    (w.interactiveEnv "podman" ["exec", "-it", id, "/bin/bash"])

/-- Key events of the loop, mirroring the `KeyCode` variants `main` matches
on; `OtherKey` stands for the wildcard arm. -/
inductive KeyCode where
  | Esc
  | Enter
  | Up
  | Down
  | Backspace
  | Char (c : Char)
  | OtherKey
deriving DecidableEq, Repr

/-- The mutable state of `main` (main.rs lines 161-165): current screen,
selection index, output message, input buffer, and last prompt origin. -/
structure AppState where
  screen : Screen
  selected : Nat
  message : String
  input : String
  input_origin : PromptOrigin
deriving DecidableEq, Repr

/-- Initial state at startup (main.rs lines 161-165). -/
def initState : AppState :=
  { screen := .Main, selected := 0, message := "", input := "", input_origin := .ChangeVT }

/-- Result of one iteration of the key-event handler: whether the loop
breaks, the next state, and the effects performed during the transition. -/
structure StepOut where
  quit : Bool
  state : AppState
  effects : List Effect
deriving Repr

/-- The item lists rendered for each list screen (main.rs lines 170-200). -/
def menuItems : Screen → List String
  | .Main => ["VT Menu", "Podman Menu", "Quit"]
  | .VTMenu => ["Change VT (ask number)", "Desktops", "Back to Main Menu"]
  | .Desktops =>
      ["Known: X11 VT (chvt 7)", "Known: Wayland VT (chvt 8)", "Back to VT Menu"]
  | .Podman =>
      ["List containers", "Start container", "Stop container",
       "Open shell in container", "Back to Main Menu"]
  | .Output => []
  | .Input _ _ => []

/-- Number of items of a screen's list (zero for `Output`/`Input`). -/
def itemCount (sc : Screen) : Nat := (menuItems sc).length

/-- Whether a screen renders a selectable item list. -/
def isListScreen : Screen → Bool
  | .Main => true
  | .VTMenu => true
  | .Desktops => true
  | .Podman => true
  | _ => false

/-- Whether a screen is the `Input` prompt. -/
def isInputScreen : Screen → Bool
  | .Input _ _ => true
  | _ => false

/-- Footer hint rendered by `draw_menu` (main.rs line 124). -/
def draw_menu_footer : String := "Arrows: navigate • Enter: select • Esc/q: back/quit"

/-- The `Screen::Main` arm of the key handler (main.rs lines 229-246);
`Char('q') | Esc` breaks the loop. -/
def stepMain (s : AppState) (k : KeyCode) : StepOut :=
  match k with
  | .Char 'q' => ⟨true, s, []⟩
  | .Esc => ⟨true, s, []⟩
  | .Down => ⟨false, { s with selected := (s.selected + 1) % 3 }, []⟩
  | .Up => ⟨false, { s with selected := (s.selected + 3 - 1) % 3 }, []⟩
  | .Enter =>
    match s.selected with
    | 0 => ⟨false, { s with screen := .VTMenu, selected := 0 }, []⟩
    | 1 => ⟨false, { s with screen := .Podman, selected := 0 }, []⟩
    | 2 => ⟨true, s, []⟩
    | _ => ⟨false, s, []⟩
  | _ => ⟨false, s, []⟩

/-- The `Screen::VTMenu` arm (main.rs lines 247-274). -/
def stepVTMenu (s : AppState) (k : KeyCode) : StepOut :=
  match k with
  | .Esc => ⟨false, { s with screen := .Main, selected := 0 }, []⟩
  | .Down => ⟨false, { s with selected := (s.selected + 1) % 3 }, []⟩
  | .Up => ⟨false, { s with selected := (s.selected + 3 - 1) % 3 }, []⟩
  | .Enter =>
    match s.selected with
    | 0 =>
      ⟨false,
       { s with input := "", input_origin := .ChangeVT,
                screen := .Input "Enter VT number (e.g. 1..12)" .ChangeVT }, []⟩
    | 1 => ⟨false, { s with screen := .Desktops, selected := 0 }, []⟩
    | 2 => ⟨false, { s with screen := .Main, selected := 0 }, []⟩
    | _ => ⟨false, s, []⟩
  | _ => ⟨false, s, []⟩

/-- The `Screen::Desktops` arm (main.rs lines 275-298). -/
def stepDesktops (w : World) (s : AppState) (k : KeyCode) : StepOut :=
  match k with
  | .Esc => ⟨false, { s with screen := .VTMenu, selected := 0 }, []⟩
  | .Down => ⟨false, { s with selected := (s.selected + 1) % 3 }, []⟩
  | .Up => ⟨false, { s with selected := (s.selected + 3 - 1) % 3 }, []⟩
  | .Enter =>
    match s.selected with
    | 0 =>
      let r := chvt w "7"
      ⟨false, { s with message := r.1, screen := .Output }, r.2⟩
    | 1 =>
      let r := chvt w "8"
      ⟨false, { s with message := r.1, screen := .Output }, r.2⟩
    | 2 => ⟨false, { s with screen := .VTMenu, selected := 0 }, []⟩
    | _ => ⟨false, s, []⟩
  | _ => ⟨false, s, []⟩

/-- The `Screen::Podman` arm (main.rs lines 299-342). -/
def stepPodman (w : World) (s : AppState) (k : KeyCode) : StepOut :=
  match k with
  | .Esc => ⟨false, { s with screen := .Main, selected := 0 }, []⟩
  | .Down => ⟨false, { s with selected := (s.selected + 1) % 5 }, []⟩
  | .Up => ⟨false, { s with selected := (s.selected + 5 - 1) % 5 }, []⟩
  | .Enter =>
    match s.selected with
    | 0 =>
      let r := podman_ps w
      ⟨false, { s with message := r.1, screen := .Output }, r.2⟩
    | 1 =>
      ⟨false,
       { s with input := "", input_origin := .PodmanStart,
                screen := .Input "Start container (id or name)" .PodmanStart }, []⟩
    | 2 =>
      ⟨false,
       { s with input := "", input_origin := .PodmanStop,
                screen := .Input "Stop container (id or name)" .PodmanStop }, []⟩
    | 3 =>
      ⟨false,
       { s with input := "", input_origin := .PodmanShell,
                screen := .Input "Open shell in container (id or name)" .PodmanShell }, []⟩
    | 4 => ⟨false, { s with screen := .Main, selected := 0 }, []⟩
    | _ => ⟨false, s, []⟩
  | _ => ⟨false, s, []⟩

/-- The `Screen::Output` arm (main.rs lines 343-351); `Esc | Char('q') | Enter`
all return to `Podman`. -/
def stepOutput (s : AppState) (k : KeyCode) : StepOut :=
  match k with
  | .Esc => ⟨false, { s with screen := .Podman, selected := 0, message := "" }, []⟩
  | .Char 'q' => ⟨false, { s with screen := .Podman, selected := 0, message := "" }, []⟩
  | .Enter => ⟨false, { s with screen := .Podman, selected := 0, message := "" }, []⟩
  | _ => ⟨false, s, []⟩

/-- The `Screen::Input` arm (main.rs lines 352-406), with the screen's
`origin` passed in. -/
def stepInput (w : World) (s : AppState) (origin : PromptOrigin) (k : KeyCode) : StepOut :=
  match k with
  | .Esc =>
    match origin with
    | .ChangeVT => ⟨false, { s with screen := .VTMenu, selected := 0 }, []⟩
    | _ => ⟨false, { s with screen := .Podman, selected := 0 }, []⟩
  | .Enter =>
    let val := rustTrim s.input
    if val = "" then
      ⟨false, { s with message := "Empty input", screen := .Output, input := "" }, []⟩
    else
      match origin with
      | .ChangeVT =>
        let r := chvt w val
        ⟨false, { s with message := r.1, screen := .Output, input := "" }, r.2⟩
      | .PodmanStart =>
        let r := podman_start w val
        ⟨false, { s with message := r.1, screen := .Output, input := "" }, r.2⟩
      | .PodmanStop =>
        let r := podman_stop w val
        ⟨false, { s with message := r.1, screen := .Output, input := "" }, r.2⟩
      | .PodmanShell =>
        match podman_shellW w val with
        | (.ok _, t) =>
          ⟨false,
           { s with message := "Exited shell for " ++ val, screen := .Output, input := "" }, t⟩
        | (.error e, t) =>
          ⟨false, { s with message := e, screen := .Output, input := "" }, t⟩
  | .Backspace => ⟨false, { s with input := rustPop s.input }, []⟩
  | .Char c => ⟨false, { s with input := s.input.push c }, []⟩
  | _ => ⟨false, s, []⟩

/-- The `Event::Key` handler of `main`'s loop (main.rs lines 227-407): one
key event consumed in state `s`, under world `w`, dispatched on the current
screen. Non-key events (mouse/resize/focus/paste, lines 409-412) leave the
state unchanged and are not modelled. -/
def step (w : World) (s : AppState) (k : KeyCode) : StepOut :=
  match s.screen with
  | .Main => stepMain s k
  | .VTMenu => stepVTMenu s k
  | .Desktops => stepDesktops w s k
  | .Podman => stepPodman w s k
  | .Output => stepOutput s k
  | .Input _ origin => stepInput w s origin k

/-- Folds `step` over a key sequence, stopping when the loop breaks. -/
def runKeys (w : World) (s : AppState) : List KeyCode → AppState
  | [] => s
  | k :: ks =>
    let r := step w s k
    if r.quit then r.state else runKeys w r.state ks

/-- A concrete world where every capture spawn fails and every interactive
spawn fails after raw mode was successfully toggled. -/
def w0 : World :=
  { captureOutcome := fun _ _ => .err "No such file or directory (os error 2)",
    interactiveEnv := fun _ _ =>
      { disableRaw := .ok (), spawnStatus := .error "No such file or directory (os error 2)",
        enableRaw := .ok () } }

/-- Boolean success test on a `run_interactive`-style result. -/
def exceptOk : Except String Unit → Bool
  | .ok _ => true
  | .error _ => false

/-- An interactive environment where raw-mode toggling and the spawn succeed
but the child exits unsuccessfully (exit status 125). -/
def shFailEnv : InteractiveEnv :=
  { disableRaw := .ok ()
    spawnStatus := .ok { success := false, display := "exit status: 125" }
    enableRaw := .ok () }

/-- C3: `run_interactive` first disables raw mode and, if that fails, returns
the error without spawning the child; otherwise it spawns the child with
inherited stdio and then re-enables raw mode unconditionally, even when the
spawn failed (the trace below holds whatever `env.spawnStatus` is). -/
theorem run_interactive_protocol (cmd : String) (args : List String) (env : InteractiveEnv) :
    (∀ e, env.disableRaw = .error e →
        run_interactive cmd args env = (.error e, [Effect.disableRaw])) ∧
    (env.disableRaw = .ok () →
        (run_interactive cmd args env).2 =
          [Effect.disableRaw, Effect.spawn cmd args StdioMode.inherited, Effect.enableRaw]) := by
  obtain ⟨d, sp, en⟩ := env
  constructor
  · intro e he
    cases he
    rfl
  · intro h
    cases h
    cases en <;> rfl

/-- Witness for C3 at concrete environments: a raw-mode failure is returned
with no spawn attempted, and with raw-mode working but the spawn failing the
trace still ends in `enableRaw`. -/
theorem run_interactive_protocol_witness :
    run_interactive "podman" ["exec"]
        { disableRaw := .error "boom", spawnStatus := .error "x", enableRaw := .ok () } =
      (.error "boom", [Effect.disableRaw]) ∧
    (run_interactive "podman" ["exec"]
        { disableRaw := .ok (), spawnStatus := .error "x", enableRaw := .ok () }).2 =
      [Effect.disableRaw, Effect.spawn "podman" ["exec"] StdioMode.inherited,
       Effect.enableRaw] :=
  ⟨(run_interactive_protocol "podman" ["exec"] _).1 "boom" rfl,
   (run_interactive_protocol "podman" ["exec"] _).2 rfl⟩

/-- C1 counterexample: with the first invocation's child spawned successfully
but exiting unsuccessfully (status 125, e.g. a missing container), that
invocation did not complete successfully, yet `podman_shell` performs no
`/bin/bash` retry (the trace holds a single spawn, of `/bin/sh`) and reports
no error. -/
theorem podman_shell_no_retry_on_child_failure :
    shFailEnv.spawnStatus = Except.ok { success := false, display := "exit status: 125" } ∧
    podman_shell "missingcontainer" shFailEnv shFailEnv =
      (Except.ok (),
       [Effect.disableRaw,
        Effect.spawn "podman" ["exec", "-it", "missingcontainer", "/bin/sh"]
          StdioMode.inherited,
        Effect.enableRaw]) :=
  ⟨rfl, rfl⟩

/-- C1 (amended): `podman_shell(id)` first invokes `run_interactive` with
`podman exec -it <id> /bin/sh`; it retries exactly once with `/bin/bash`
exactly when that call returns an error (raw-mode toggle failure or spawn
failure — the child's exit status is discarded, so a child exiting
unsuccessfully does not trigger the retry); and it reports an error if and
only if both calls return errors. -/
theorem podman_shell_retry_spec (id : String) (env1 env2 : InteractiveEnv) :
    (exceptOk (podman_shell id env1 env2).1 =
       (exceptOk (run_interactive "podman" ["exec", "-it", id, "/bin/sh"] env1).1 ||
        exceptOk (run_interactive "podman" ["exec", "-it", id, "/bin/bash"] env2).1)) ∧
    ((podman_shell id env1 env2).2 =
       if exceptOk (run_interactive "podman" ["exec", "-it", id, "/bin/sh"] env1).1 then
         (run_interactive "podman" ["exec", "-it", id, "/bin/sh"] env1).2
       else
         (run_interactive "podman" ["exec", "-it", id, "/bin/sh"] env1).2 ++
         (run_interactive "podman" ["exec", "-it", id, "/bin/bash"] env2).2) := by
  unfold podman_shell
  rcases h1 : run_interactive "podman" ["exec", "-it", id, "/bin/sh"] env1 with ⟨r1, t1⟩
  rcases h2 : run_interactive "podman" ["exec", "-it", id, "/bin/bash"] env2 with ⟨r2, t2⟩
  rcases r1 with u1 | e1 <;> rcases r2 with u2 | e2 <;> simp [exceptOk, h1, h2]

/-- C4 counterexample: on a non-zero exit whose stderr is the non-empty
whitespace string " ", `run_capture` does not return the stderr text: it
returns the synthesized message instead. -/
theorem run_capture_whitespace_stderr :
    (" " : String) ≠ "" ∧
    run_capture "podman" ["start", "c1"]
        (SpawnResult.ok
          { success := false, statusDisplay := "exit status: 1",
            stdoutLossy := "", stderrLossy := " " }) ≠ " " ∧
    run_capture "podman" ["start", "c1"]
        (SpawnResult.ok
          { success := false, statusDisplay := "exit status: 1",
            stdoutLossy := "", stderrLossy := " " }) =
      commandFailedMsg "podman" ["start", "c1"] "exit status: 1" :=
  ⟨by decide, by decide, by decide⟩

/-- C4 (amended): `run_capture` returns the decoded stdout on success; on a
non-zero exit the stderr text when it is non-blank (non-empty after trimming
whitespace), else a synthesized message naming the command, arguments and
exit status; and on spawn failure a message naming the command and the OS
error. It always returns a string, never propagating an error. -/
theorem run_capture_spec (cmd : String) (args : List String) (r : SpawnResult) :
    (∀ out, r = .ok out → out.success = true →
        run_capture cmd args r = out.stdoutLossy) ∧
    (∀ out, r = .ok out → out.success = false → rustTrim out.stderrLossy ≠ "" →
        run_capture cmd args r = out.stderrLossy) ∧
    (∀ out, r = .ok out → out.success = false → rustTrim out.stderrLossy = "" →
        run_capture cmd args r = commandFailedMsg cmd args out.statusDisplay) ∧
    (∀ e, r = .err e →
        run_capture cmd args r = "Failed to run " ++ cmd ++ ": " ++ e) := by
  refine ⟨?_, ?_, ?_, ?_⟩
  · intro out hr hs
    cases hr
    simp [run_capture, hs]
  · intro out hr hs hb
    cases hr
    simp [run_capture, hs, hb]
  · intro out hr hs hb
    cases hr
    simp [run_capture, hs, hb]
  · intro e hr
    cases hr
    rfl

/-- Witness for C4's amended theorem at a concrete outcome: exit status 1
with stderr "\n" (blank after trimming) yields the synthesized message. -/
theorem run_capture_spec_witness :
    run_capture "podman" ["start", "c1"]
        (SpawnResult.ok
          { success := false, statusDisplay := "exit status: 1",
            stdoutLossy := "", stderrLossy := "\n" }) =
      commandFailedMsg "podman" ["start", "c1"] "exit status: 1" :=
  (run_capture_spec "podman" ["start", "c1"] _).2.2.1 _ rfl rfl (by decide)

/-- On a list screen, one Up or Down key keeps the screen, does not quit,
and leaves the selection strictly below the item count. -/
theorem step_updown_list (w : World) (s : AppState) (k : KeyCode)
    (hs : isListScreen s.screen = true) (hk : k = KeyCode.Up ∨ k = KeyCode.Down) :
    (step w s k).quit = false ∧
    (step w s k).state.screen = s.screen ∧
    (step w s k).state.selected < itemCount s.screen := by
  obtain ⟨scr, sel, msg, inp, org⟩ := s
  rcases hk with rfl | rfl <;> cases scr <;>
    first
      | exact Bool.noConfusion hs
      | exact ⟨rfl, rfl, Nat.mod_lt _ (by decide)⟩

/-- Any Up/Down sequence started on a list screen with an in-range selection
keeps the screen and the in-range selection. -/
theorem runKeys_updown_preserves (w : World) (ks : List KeyCode) :
    ∀ s : AppState, isListScreen s.screen = true →
      (∀ k ∈ ks, k = KeyCode.Up ∨ k = KeyCode.Down) →
      s.selected < itemCount s.screen →
      (runKeys w s ks).screen = s.screen ∧
      (runKeys w s ks).selected < itemCount s.screen := by
  induction ks with
  | nil => intro s _ _ hsel; exact ⟨rfl, hsel⟩
  | cons k ks ih =>
    intro s hs hk hsel
    obtain ⟨hq, hscr, hlt⟩ := step_updown_list w s k hs (hk k (by simp))
    have ih' := ih (step w s k).state (hscr ▸ hs) (fun x hx => hk x (by simp [hx])) (hscr ▸ hlt)
    rw [hscr] at ih'
    have hr : runKeys w s (k :: ks) = runKeys w (step w s k).state ks := by
      simp [runKeys, hq]
    rw [hr]
    exact ih'

/-- C5: on every list screen, after any sequence of Up/Down keys the
selection stays within [0, item count) of that screen's item list; Down at
the last index wraps to 0 and Up at index 0 wraps to the last index. -/
theorem selected_index_in_range (w : World) (s : AppState) (ks : List KeyCode)
    (hs : isListScreen s.screen = true)
    (hk : ∀ k ∈ ks, k = KeyCode.Up ∨ k = KeyCode.Down)
    (hsel : s.selected < itemCount s.screen) :
    ((runKeys w s ks).screen = s.screen ∧
     (runKeys w s ks).selected < itemCount s.screen) ∧
    (s.selected = itemCount s.screen - 1 → (step w s KeyCode.Down).state.selected = 0) ∧
    (s.selected = 0 → (step w s KeyCode.Up).state.selected = itemCount s.screen - 1) := by
  refine ⟨runKeys_updown_preserves w ks s hs hk hsel, ?_, ?_⟩
  · intro hlast
    obtain ⟨scr, sel, msg, inp, org⟩ := s
    simp only at hlast
    cases scr <;>
      first
        | exact Bool.noConfusion hs
        | (subst hlast;
           simp [step, stepMain, stepVTMenu, stepDesktops, stepPodman, itemCount, menuItems])
  · intro h0
    obtain ⟨scr, sel, msg, inp, org⟩ := s
    simp only at h0
    cases scr <;>
      first
        | exact Bool.noConfusion hs
        | (subst h0;
           simp [step, stepMain, stepVTMenu, stepDesktops, stepPodman, itemCount, menuItems])

/-- Witness for C5 on the Main menu: two Downs and one Up from the initial
state stay on Main within range, and the wrap facts hold at index 0. -/
theorem selected_index_in_range_witness :
    ((runKeys w0 initState [KeyCode.Down, KeyCode.Down, KeyCode.Up]).screen
        = initState.screen ∧
     (runKeys w0 initState [KeyCode.Down, KeyCode.Down, KeyCode.Up]).selected
        < itemCount initState.screen) ∧
    (initState.selected = itemCount initState.screen - 1 →
       (step w0 initState KeyCode.Down).state.selected = 0) ∧
    (initState.selected = 0 →
       (step w0 initState KeyCode.Up).state.selected = itemCount initState.screen - 1) :=
  selected_index_in_range w0 initState [KeyCode.Down, KeyCode.Down, KeyCode.Up]
    (by decide) (by decide) (by decide)

/-- C2 counterexample: the reachable key sequence Enter (Main item 0), Enter
(VTMenu item 0), typing the character a, then Esc ends on the VTMenu screen
with input_buffer "a": Esc out of Input switches screens without clearing
the buffer, refuting the invariant. -/
theorem input_buffer_not_cleared_on_esc :
    (runKeys w0 initState
        [KeyCode.Enter, KeyCode.Enter, KeyCode.Char 'a', KeyCode.Esc]).screen
      = Screen.VTMenu ∧
    (runKeys w0 initState
        [KeyCode.Enter, KeyCode.Enter, KeyCode.Char 'a', KeyCode.Esc]).input
      = "a" := by decide

/-- Every Enter submission on the Input screen produces an Output state with
an empty input buffer, whatever the buffer contents and origin. -/
theorem stepInput_enter_shape (w : World) (s : AppState) (o : PromptOrigin) :
    ∃ m t, stepInput w s o KeyCode.Enter =
      ⟨false, { s with message := m, screen := Screen.Output, input := "" }, t⟩ := by
  simp only [stepInput]
  split
  · exact ⟨"Empty input", [], rfl⟩
  · cases o
    · exact ⟨_, _, rfl⟩
    · exact ⟨_, _, rfl⟩
    · exact ⟨_, _, rfl⟩
    · rcases hps : podman_shellW w (rustTrim s.input) with ⟨r, t⟩
      cases r
      · exact ⟨_, _, rfl⟩
      · exact ⟨_, _, rfl⟩

/-- C2 (amended): the input buffer is cleared on every Enter submission out
of the Input screen (which always lands on Output), while Esc out of Input
switches to a non-Input screen leaving the buffer unchanged — so the buffer
can stay non-empty outside Input until the next prompt is entered. -/
theorem input_buffer_clearing (w : World) (s : AppState) (p : String) (o : PromptOrigin)
    (h : s.screen = Screen.Input p o) :
    ((step w s KeyCode.Enter).state.input = "" ∧
     (step w s KeyCode.Enter).state.screen = Screen.Output) ∧
    (step w s KeyCode.Esc).state.input = s.input ∧
    isInputScreen (step w s KeyCode.Esc).state.screen = false := by
  obtain ⟨scr, sel, msg, inp, org⟩ := s
  cases h
  constructor
  · obtain ⟨m, t, hshape⟩ :=
      stepInput_enter_shape w ⟨Screen.Input p o, sel, msg, inp, org⟩ o
    show ((stepInput w _ o KeyCode.Enter).state.input = "" ∧
          (stepInput w _ o KeyCode.Enter).state.screen = Screen.Output)
    rw [hshape]
    exact ⟨rfl, rfl⟩
  · cases o <;> exact ⟨rfl, rfl⟩

/-- A concrete Input state with origin ChangeVT and buffer "abc". -/
def sInputVT : AppState :=
  { screen := .Input "Enter VT number (e.g. 1..12)" .ChangeVT, selected := 0,
    message := "", input := "abc", input_origin := .ChangeVT }

/-- Witness for C2's amended theorem at the concrete state `sInputVT`. -/
theorem input_buffer_clearing_witness :
    ((step w0 sInputVT KeyCode.Enter).state.input = "" ∧
     (step w0 sInputVT KeyCode.Enter).state.screen = Screen.Output) ∧
    (step w0 sInputVT KeyCode.Esc).state.input = sInputVT.input ∧
    isInputScreen (step w0 sInputVT KeyCode.Esc).state.screen = false :=
  input_buffer_clearing w0 sInputVT "Enter VT number (e.g. 1..12)"
    PromptOrigin.ChangeVT rfl

/-- C6: on the Input screen, Enter with a buffer that is blank after
trimming sets the message to "Empty input" and moves to Output with an
empty effect trace — no subprocess is invoked — for every prompt origin. -/
theorem empty_input_no_subprocess (w : World) (s : AppState) (p : String) (o : PromptOrigin)
    (hscr : s.screen = Screen.Input p o) (hblank : rustTrim s.input = "") :
    step w s KeyCode.Enter =
      { quit := false,
        state := { s with screen := Screen.Output, message := "Empty input", input := "" },
        effects := [] } := by
  obtain ⟨scr, sel, msg, inp, org⟩ := s
  cases hscr
  show stepInput w _ o KeyCode.Enter = _
  simp [stepInput, hblank]

/-- A concrete Input state with origin PodmanShell and whitespace buffer. -/
def sInputShell : AppState :=
  { screen := .Input "Open shell in container (id or name)" .PodmanShell, selected := 3,
    message := "", input := "  ", input_origin := .PodmanShell }

/-- Witness for C6 at the concrete whitespace-buffer state `sInputShell`. -/
theorem empty_input_no_subprocess_witness :
    step w0 sInputShell KeyCode.Enter =
      { quit := false,
        state :=
          { sInputShell with screen := Screen.Output, message := "Empty input", input := "" },
        effects := [] } :=
  empty_input_no_subprocess w0 sInputShell "Open shell in container (id or name)"
    PromptOrigin.PodmanShell rfl (by decide)

/-- C7: on the Output screen, each of Esc, the character q, and Enter moves
to the Podman screen with selection 0 and an empty message, without
quitting and with no effects, whatever message was being displayed and
whichever action produced it. -/
theorem output_exit_to_podman (w : World) (s : AppState) (hscr : s.screen = Screen.Output)
    (k : KeyCode) (hk : k = KeyCode.Esc ∨ k = KeyCode.Char 'q' ∨ k = KeyCode.Enter) :
    step w s k =
      { quit := false,
        state := { s with screen := Screen.Podman, selected := 0, message := "" },
        effects := [] } := by
  obtain ⟨scr, sel, msg, inp, org⟩ := s
  cases hscr
  rcases hk with rfl | rfl | rfl <;> rfl

/-- A concrete Output state displaying the result of a VT-menu action. -/
def sOutput : AppState :=
  { screen := .Output, selected := 0, message := "chvt said something", input := "",
    input_origin := .ChangeVT }

/-- Witness for C7: pressing q on the concrete Output state `sOutput`. -/
theorem output_exit_to_podman_witness :
    step w0 sOutput (KeyCode.Char 'q') =
      { quit := false,
        state := { sOutput with screen := Screen.Podman, selected := 0, message := "" },
        effects := [] } :=
  output_exit_to_podman w0 sOutput rfl (KeyCode.Char 'q') (Or.inr (Or.inl rfl))

/-- C8: on the Input screen, Esc goes to VTMenu when the origin is ChangeVT
and to Podman when it is PodmanStart, PodmanStop or PodmanShell, with
selection 0 in both cases, without quitting. -/
theorem input_escape_destination (w : World) (s : AppState) (p : String) (o : PromptOrigin)
    (hscr : s.screen = Screen.Input p o) :
    (o = PromptOrigin.ChangeVT → (step w s KeyCode.Esc).state.screen = Screen.VTMenu) ∧
    ((o = PromptOrigin.PodmanStart ∨ o = PromptOrigin.PodmanStop ∨
        o = PromptOrigin.PodmanShell) →
      (step w s KeyCode.Esc).state.screen = Screen.Podman) ∧
    (step w s KeyCode.Esc).state.selected = 0 ∧
    (step w s KeyCode.Esc).quit = false := by
  obtain ⟨scr, sel, msg, inp, org⟩ := s
  cases hscr
  cases o
  · refine ⟨fun _ => rfl, ?_, rfl, rfl⟩
    rintro (h | h | h) <;> exact PromptOrigin.noConfusion h
  · exact ⟨fun h => PromptOrigin.noConfusion h, fun _ => rfl, rfl, rfl⟩
  · exact ⟨fun h => PromptOrigin.noConfusion h, fun _ => rfl, rfl, rfl⟩
  · exact ⟨fun h => PromptOrigin.noConfusion h, fun _ => rfl, rfl, rfl⟩

/-- Witness for C8 at the concrete ChangeVT-origin state `sInputVT`. -/
theorem input_escape_destination_witness :
    (PromptOrigin.ChangeVT = PromptOrigin.ChangeVT →
       (step w0 sInputVT KeyCode.Esc).state.screen = Screen.VTMenu) ∧
    ((PromptOrigin.ChangeVT = PromptOrigin.PodmanStart ∨
        PromptOrigin.ChangeVT = PromptOrigin.PodmanStop ∨
        PromptOrigin.ChangeVT = PromptOrigin.PodmanShell) →
       (step w0 sInputVT KeyCode.Esc).state.screen = Screen.Podman) ∧
    (step w0 sInputVT KeyCode.Esc).state.selected = 0 ∧
    (step w0 sInputVT KeyCode.Esc).quit = false :=
  input_escape_destination w0 sInputVT "Enter VT number (e.g. 1..12)"
    PromptOrigin.ChangeVT rfl

/-- C9: pressing the character q on the VTMenu, Desktops or Podman screen
leaves the whole state unchanged with no effects and no quit; q quits the
loop exactly on the Main screen; and the footer hint rendered by draw_menu
nevertheless advertises "Esc/q: back/quit". -/
theorem char_q_not_global_quit (w : World) (s : AppState) :
    ((step w s (KeyCode.Char 'q')).quit = true ↔ s.screen = Screen.Main) ∧
    (s.screen = Screen.VTMenu ∨ s.screen = Screen.Desktops ∨ s.screen = Screen.Podman →
       step w s (KeyCode.Char 'q') = { quit := false, state := s, effects := [] }) ∧
    draw_menu_footer = "Arrows: navigate • Enter: select • Esc/q: back/quit" := by
  obtain ⟨scr, sel, msg, inp, org⟩ := s
  refine ⟨?_, ?_, rfl⟩
  · cases scr
    · exact ⟨fun _ => rfl, fun _ => rfl⟩
    · exact ⟨fun h => Bool.noConfusion h, fun h => Screen.noConfusion h⟩
    · exact ⟨fun h => Bool.noConfusion h, fun h => Screen.noConfusion h⟩
    · exact ⟨fun h => Bool.noConfusion h, fun h => Screen.noConfusion h⟩
    · exact ⟨fun h => Bool.noConfusion h, fun h => Screen.noConfusion h⟩
    · exact ⟨fun h => Bool.noConfusion h, fun h => Screen.noConfusion h⟩
  · rintro (h | h | h) <;> (simp only at h; subst h; rfl)

/-- A concrete VTMenu state with a non-zero selection. -/
def sVTMenuQ : AppState :=
  { screen := .VTMenu, selected := 1, message := "", input := "", input_origin := .ChangeVT }

/-- Witness for C9: q on the concrete VTMenu state `sVTMenuQ` is a no-op. -/
theorem char_q_not_global_quit_witness :
    step w0 sVTMenuQ (KeyCode.Char 'q') = { quit := false, state := sVTMenuQ, effects := [] } :=
  (char_q_not_global_quit w0 sVTMenuQ).2.1 (Or.inl rfl)

/-- C10: every transition that enters the Input screen clears the input
buffer: whenever the current screen is not Input and one key event lands on
Input, the new state's buffer is empty, even if a previous Input session
left text behind. -/
theorem input_entry_clears_buffer (w : World) (s : AppState) (k : KeyCode)
    (hnot : isInputScreen s.screen = false)
    (hin : isInputScreen (step w s k).state.screen = true) :
    (step w s k).state.input = "" := by
  obtain ⟨scr, sel, msg, inp, org⟩ := s
  cases scr
  case Input => exact Bool.noConfusion hnot
  all_goals
    rcases k with _ | _ | _ | _ | _ | c | _ <;>
      first
      | exact Bool.noConfusion hin
      | rfl
      | (rcases sel with _ | _ | _ | _ | _ | sel <;>
          first
          | exact Bool.noConfusion hin
          | rfl)
      | (by_cases hc : c = 'q'
         · subst hc; exact Bool.noConfusion hin
         · simp [step, stepMain, stepOutput, isInputScreen, hc] at hin)

/-- A concrete VTMenu state whose buffer still holds abandoned text. -/
def sVTMenuLeft : AppState :=
  { screen := .VTMenu, selected := 0, message := "", input := "leftover",
    input_origin := .PodmanStop }

/-- Witness for C10: entering the ChangeVT prompt from `sVTMenuLeft` (Enter
on VTMenu item 0) starts with an empty buffer despite the leftover text. -/
theorem input_entry_clears_buffer_witness :
    (step w0 sVTMenuLeft KeyCode.Enter).state.input = "" :=
  input_entry_clears_buffer w0 sVTMenuLeft KeyCode.Enter (by decide) (by decide)

end MainMenu
